import Mathlib

/-!
Verification of the DirectFB surface adapter (`src/cairo-directfb-surface.c`)
against its natural-language specification.  The C code is shallowly embedded:
pure lookup tables become Lean functions, and the stateful hardware surface is
modelled by an explicit state record together with a trace of the hardware
calls (`DFBEvent`) each operation emits.  Hardware call results that the code
branches on (SetClip, CreateSurface, Lock) are supplied as explicit oracle
arguments.
-/

namespace CairoDFB

/-- `cairo_operator_t`: the full set of cairo compositing operators. -/
inductive CairoOperator
  | clear | source | over | opIn | opOut | atop
  | dest | destOver | destIn | destOut | destAtop
  | xor | add
  | saturate | multiply | screen | overlay | darken | lighten
  | colorDodge | colorBurn | hardLight | softLight
  | difference | exclusion
  | hslHue | hslSaturationOp | hslColor | hslLuminosity
deriving DecidableEq, Repr

/-- `DFBSurfaceBlendFunction`: the DirectFB blend factors used by the file. -/
inductive DFBSurfaceBlendFunction
  | zero | one | srcAlpha | invSrcAlpha | destAlpha | invDestAlpha | srcAlphaSat
deriving DecidableEq, Repr

/-- `DFBSurfacePorterDuffRule`: DirectFB named composite rules. -/
inductive DFBSurfacePorterDuffRule
  | dspdNone | clear | src | srcOver | dstOver | srcIn | dstIn
  | srcOut | dstOut | srcAtop | dstAtop | add | xor | dst
deriving DecidableEq, Repr

/-- `DFBSurfaceDrawingFlags`: only `DSDRAW_NOFX` and `DSDRAW_BLEND` occur. -/
inductive DFBSurfaceDrawingFlags
  | nofx | blend
deriving DecidableEq, Repr

/-- `cairo_int_status_t`: the statuses this file produces or propagates. -/
inductive CairoIntStatus
  | success | unsupported | noMemory | deviceError
deriving DecidableEq, Repr

/-- `DFBResult`: a hardware call either reports `DFB_OK` or a failure. -/
inductive DFBResult
  | ok | failed
deriving DecidableEq, Repr

/-- `_cairo_dfb_is_op_supported`: true exactly on the thirteen Porter-Duff
operators handled natively (lines 401-440 of the source). -/
def _cairo_dfb_is_op_supported : CairoOperator → Bool
  | .clear | .source | .over | .opIn | .opOut | .atop
  | .dest | .destOver | .destIn | .destOut | .destAtop
  | .xor | .add => true
  | _ => false

/-- `_cairo_operator_to_dfb_porter_duff` (lines 442-492 of the source):
supported operators map to the matching DirectFB rule, all others to
`DSPD_NONE`. -/
def _cairo_operator_to_dfb_porter_duff : CairoOperator → DFBSurfacePorterDuffRule
  | .clear => .clear
  | .source => .src
  | .over => .srcOver
  | .opIn => .srcIn
  | .opOut => .srcOut
  | .atop => .srcAtop
  | .dest => .dst
  | .destOver => .dstOver
  | .destIn => .dstIn
  | .destOut => .dstOut
  | .destAtop => .dstAtop
  | .xor => .xor
  | .add => .add
  | _ => .dspdNone

/-- `_directfb_get_operator` (lines 502-624 of the source, the active 3-argument
variant): maps a supported operator to its (source factor, destination factor)
pair; returns `none` (C `FALSE`) for every other operator.  The disabled
(`#if 0`) opaque/content collapsing inside this function is not part of the
compiled code and is not modelled here. -/
def _directfb_get_operator :
    CairoOperator → Option (DFBSurfaceBlendFunction × DFBSurfaceBlendFunction)
  | .clear => some (.zero, .zero)
  | .source => some (.one, .zero)
  | .over => some (.one, .invSrcAlpha)
  | .opIn => some (.destAlpha, .zero)
  | .opOut => some (.invDestAlpha, .zero)
  | .atop => some (.destAlpha, .invSrcAlpha)
  | .dest => some (.zero, .one)
  | .destOver => some (.invDestAlpha, .one)
  | .destIn => some (.zero, .srcAlpha)
  | .destOut => some (.zero, .invSrcAlpha)
  | .destAtop => some (.invDestAlpha, .srcAlpha)
  | .xor => some (.invDestAlpha, .invSrcAlpha)
  | .add => some (.one, .one)
  | _ => none

/-- The thirteen operators the spec lists as supported. -/
def supported_ops : List CairoOperator :=
  [.clear, .source, .over, .opIn, .opOut, .atop,
   .dest, .destOver, .destIn, .destOut, .destAtop, .xor, .add]

/-- Spec-side definition (from the spec's words, for comparison with the
source tables): the factor pair prescribed by the standard Porter-Duff
algebra for each named DirectFB composite rule; `DSPD_NONE` has none. -/
def porter_duff_standard_factors :
    DFBSurfacePorterDuffRule → Option (DFBSurfaceBlendFunction × DFBSurfaceBlendFunction)
  | .dspdNone => none
  | .clear => some (.zero, .zero)
  | .src => some (.one, .zero)
  | .srcOver => some (.one, .invSrcAlpha)
  | .dstOver => some (.invDestAlpha, .one)
  | .srcIn => some (.destAlpha, .zero)
  | .dstIn => some (.zero, .srcAlpha)
  | .srcOut => some (.invDestAlpha, .zero)
  | .dstOut => some (.zero, .invSrcAlpha)
  | .srcAtop => some (.destAlpha, .invSrcAlpha)
  | .dstAtop => some (.invDestAlpha, .srcAlpha)
  | .xor => some (.invDestAlpha, .invSrcAlpha)
  | .add => some (.one, .one)
  | .dst => some (.zero, .one)

/-- C2: the operator-support predicate holds for exactly the thirteen listed
operators; on the supported set the blend-factor table agrees with the
standard Porter-Duff algebra applied to the Porter-Duff-rule table (and the
rule is never `DSPD_NONE` there), while every unsupported operator yields
`none` from the factor table and `DSPD_NONE` from the rule table. -/
theorem C2_operator_tables_consistent : ∀ op : CairoOperator,
    _cairo_dfb_is_op_supported op = decide (op ∈ supported_ops) ∧
    _directfb_get_operator op =
      (if _cairo_dfb_is_op_supported op then
        porter_duff_standard_factors (_cairo_operator_to_dfb_porter_duff op)
      else none) ∧
    (_cairo_operator_to_dfb_porter_duff op = .dspdNone ↔
      _cairo_dfb_is_op_supported op = false) := by
  intro op
  cases op <;> exact ⟨by decide, by decide, by decide⟩

/-! ## Geometry, colors, paths and clips -/

/-- `cairo_point_t`: a point with 24.8 fixed-point coordinates. -/
structure cairo_point_t where
  x : Int
  y : Int
deriving DecidableEq, Repr

/-- `cairo_box_t`: a pair of fixed-point corner points. -/
structure cairo_box_t where
  p1 : cairo_point_t
  p2 : cairo_point_t
deriving DecidableEq, Repr

/-- `DFBRectangle`: an integer device-space rectangle. -/
structure DFBRectangle where
  x : Int
  y : Int
  w : Int
  h : Int
deriving DecidableEq, Repr

/-- Modelled from the spec: `_cairo_fixed_integer_round` (a cairo fixed-point
helper not included under `src/`) performs nearest-integer rounding of a 24.8
fixed-point value; embedded as adding one half (128) and flooring by 256. -/
def _cairo_fixed_integer_round (f : Int) : Int :=
  (f + 128).fdiv 256

/-- `_dfb_rect_from_cairo_box` (lines 648-658 of the source): round both
corners to integers and take the absolute differences as width and height. -/
def _dfb_rect_from_cairo_box (box : cairo_box_t) : DFBRectangle :=
  let x := _cairo_fixed_integer_round box.p1.x
  let y := _cairo_fixed_integer_round box.p1.y
  { x := x
    y := y
    w := |_cairo_fixed_integer_round box.p2.x - x|
    h := |_cairo_fixed_integer_round box.p2.y - y| }

/-- `cairo_matrix_t`: the pattern matrix.  Modelled from the spec: the source
uses floating-point corner transformation (`_dfb_rect_from_cairo_box_translate`
via `cairo_matrix_transform_point` on doubles); the floating-point computation
is abstracted as a function carried by the matrix value. -/
structure cairo_matrix_t where
  transformRect : cairo_box_t → DFBRectangle

/-- `_dfb_rect_from_cairo_box_translate` (lines 660-680 of the source),
with the floating-point transform abstracted into the matrix value. -/
def _dfb_rect_from_cairo_box_translate
    (box : cairo_box_t) (matrix : cairo_matrix_t) : DFBRectangle :=
  matrix.transformRect box

/-- `cairo_color_t`: the 16-bit-per-channel color representation; only the
`*_short` fields are read by this file. -/
structure cairo_color_t where
  red_short : Nat
  green_short : Nat
  blue_short : Nat
  alpha_short : Nat
deriving DecidableEq, Repr

/-- Modelled from the spec: cairo's `CAIRO_COLOR_IS_OPAQUE` macro (not under
`src/`) — a color is fully opaque when its 16-bit alpha is at least `0xff00`. -/
def CAIRO_COLOR_IS_OPAQUE (c : cairo_color_t) : Bool :=
  decide (0xff00 ≤ c.alpha_short)

/-- Modelled from the spec: a `cairo_path_fixed_t` is abstracted to whether it
is structurally an exact axis-aligned rectangle (with its fixed-point box) or
not; the structural test `_cairo_path_fixed_is_rectangle` is external path
geometry code not under `src/`. -/
inductive cairo_path_fixed_t
  | rectangle (box : cairo_box_t)
  | nonRectangular
deriving DecidableEq, Repr

/-- The external `_cairo_path_fixed_is_rectangle` on the abstracted path. -/
def _cairo_path_fixed_is_rectangle : cairo_path_fixed_t → Option cairo_box_t
  | .rectangle box => some box
  | .nonRectangular => none

/-- `cairo_rectangle_int_t`: integer extents. -/
structure cairo_rectangle_int_t where
  x : Int
  y : Int
  width : Int
  height : Int
deriving DecidableEq, Repr

/-- `cairo_clip_t`: only the extents and the external all-clipped test
(`_cairo_clip_is_all_clipped`, abstracted as a field) are consulted. -/
structure cairo_clip_t where
  extents : cairo_rectangle_int_t
  allClipped : Bool
deriving DecidableEq, Repr

/-- `DFBRegion`: the hardware clip region. -/
structure DFBRegion where
  x1 : Int
  y1 : Int
  x2 : Int
  y2 : Int
deriving DecidableEq, Repr

/-! ## Hardware call trace -/

/-- One call made on a DirectFB surface.  `write`, `blit`, `tileBlit` and
`releaseTemp` act on the temporary upload buffer of a surface-pattern fill;
everything else acts on the adapter's own hardware surface. -/
inductive DFBEvent
  | setClip (region : Option DFBRegion)
  | setDrawingFlags (flags : DFBSurfaceDrawingFlags)
  | setSrcBlendFunction (f : DFBSurfaceBlendFunction)
  | setDstBlendFunction (f : DFBSurfaceBlendFunction)
  | setColor (r g b a : Nat)
  | getSize
  | fillRectangle (x y w h : Int)
  | setPorterDuff (rule : DFBSurfacePorterDuffRule)
  | createSurface (w h : Int)
  | write (w h stride : Int)
  | blit (src : DFBRectangle) (dx dy : Int)
  | tileBlit (src : DFBRectangle) (dx dy : Int)
  | releaseTemp
  | lock
  | unlock
  | release
deriving DecidableEq, Repr

/-! ## Clip application -/

/-- `_cairo_dfb_surface_set_clip` (lines 682-706 of the source).  `clipped` is
the adapter's clip flag; `hw` is the result the hardware reports for the
`SetClip` call (unused when no call is made).  Returns the status, the new
clip flag, and the emitted hardware calls.  A hardware failure is mapped to
`CAIRO_INT_STATUS_UNSUPPORTED`. -/
def _cairo_dfb_surface_set_clip (clipped : Bool) (clip : Option cairo_clip_t)
    (hw : DFBResult) : CairoIntStatus × Bool × List DFBEvent :=
  match clip with
  | none =>
    if clipped then
      ((if hw = .ok then .success else .unsupported), false, [.setClip none])
    else
      (.success, clipped, [])
  | some c =>
    if c.allClipped then
      (.success, clipped, [])
    else
      let region : DFBRegion :=
        { x1 := c.extents.x
          y1 := c.extents.y
          x2 := c.extents.x + c.extents.width
          y2 := c.extents.y + c.extents.height }
      ((if hw = .ok then .success else .unsupported), true, [.setClip (some region)])

/-! ## Solid fill -/

/-- `cairo_solid_pattern_t`. -/
structure cairo_solid_pattern_t where
  color : cairo_color_t
deriving DecidableEq, Repr

/-- `_cairo_dfb_surface_fill_solid` (lines 708-779 of the source).  Mirrors the
source's order of operations: the drawing flags are chosen from the
uncollapsed factor pair and the blend functions are installed before the
opaque-color collapse runs; the collapsed pair (`_sblend2`, `_dblend2`) is
computed into locals that the rest of the function never reads, exactly as in
the source.  Results of `SetColor`/`FillRectangle` are only logged by the
source, so they are not oracle inputs here. -/
def _cairo_dfb_surface_fill_solid (op : CairoOperator)
    (solid : cairo_solid_pattern_t) (path : cairo_path_fixed_t) :
    CairoIntStatus × List DFBEvent :=
  match _cairo_path_fixed_is_rectangle path with
  | none => (.unsupported, [])
  | some box =>
    match _directfb_get_operator op with
    | none => (.unsupported, [])
    | some (sblend, dblend) =>
      let flags : DFBSurfaceDrawingFlags :=
        if sblend = .one ∧ dblend = .zero then .nofx else .blend
      let installFlags : List DFBEvent := [.setDrawingFlags flags]
      let installBlend : List DFBEvent :=
        if flags = .blend then
          [.setSrcBlendFunction sblend, .setDstBlendFunction dblend]
        else []
      let _sblend2 : DFBSurfaceBlendFunction :=
        if CAIRO_COLOR_IS_OPAQUE solid.color then
          if sblend = .srcAlpha then .one
          else if sblend = .invSrcAlpha then .zero
          else sblend
        else sblend
      let _dblend2 : DFBSurfaceBlendFunction :=
        if CAIRO_COLOR_IS_OPAQUE solid.color then
          if dblend = .srcAlpha then .one
          else if dblend = .invSrcAlpha then .zero
          else dblend
        else dblend
      let r := solid.color.red_short % 256
      let g := solid.color.green_short % 256
      let b := solid.color.blue_short % 256
      let a := solid.color.alpha_short % 256
      let rect := _dfb_rect_from_cairo_box box
      (.success,
       installFlags ++ installBlend ++
       [.getSize, .setColor r g b a, .fillRectangle rect.x rect.y rect.w rect.h])

/-! ## Surface-pattern fill -/

/-- `cairo_format_t` (the cases `_dfb_format_from_cairo_format` handles). -/
inductive cairo_format_t
  | invalid | rgb30 | argb32 | rgb24 | a8 | a1 | rgb16_565
deriving DecidableEq, Repr

/-- `cairo_image_surface_t`: the fields this file reads from a source image. -/
structure cairo_image_surface_t where
  width : Int
  height : Int
  format : cairo_format_t
  stride : Int
deriving DecidableEq, Repr

/-- The source surface of a surface pattern, abstracted by the three cases the
code distinguishes: a DirectFB surface, an image surface, or any other type
(for which `_cairo_surface_acquire_source_image` is called; its result is the
`Option`, modelled from the spec since that collaborator is not under
`src/`). -/
inductive source_surface_t
  | directfb
  | image (img : cairo_image_surface_t)
  | other (acquired : Option cairo_image_surface_t)

/-- `cairo_extend_t`: the pattern extend modes. -/
inductive cairo_extend_t
  | extendNone | extendRepeat | reflect | pad
deriving DecidableEq, Repr

/-- `cairo_surface_pattern_t`: the source surface plus the base pattern fields
(`extend`, `matrix`) the code reads. -/
structure cairo_surface_pattern_t where
  surface : source_surface_t
  extend : cairo_extend_t
  matrix : cairo_matrix_t

/-- `_cairo_dfb_surface_fill_surface` (lines 781-849 of the source).
`hwCreate` is the result of the `CreateSurface` call for the temporary upload
buffer.  Mirrors the source faithfully, including: the `DIRECTFB` source
branch that returns success having done nothing; the `acquired` image being
discarded (`imgsurf = NULL`) even when acquisition succeeds; the upload
(`Write`) happening before the extend mode is examined; and the unsupported
extend modes (reflect/pad) skipping the blit but still returning success. -/
def _cairo_dfb_surface_fill_surface (op : CairoOperator)
    (spattern : cairo_surface_pattern_t) (path : cairo_path_fixed_t)
    (hwCreate : DFBResult) : CairoIntStatus × List DFBEvent :=
  match _cairo_path_fixed_is_rectangle path with
  | none => (.unsupported, [])
  | some box =>
    match spattern.surface with
    | .directfb => (.success, [])
    | .other _ => (.unsupported, [])
    | .image img =>
      if img.width * img.height = 0 then
        (.unsupported, [])
      else
        let r1 := _dfb_rect_from_cairo_box box
        let r2 := _dfb_rect_from_cairo_box_translate box spattern.matrix
        if hwCreate ≠ .ok then
          (.unsupported, [.createSurface img.width img.height])
        else
          let blitCall : List DFBEvent :=
            match spattern.extend with
            | .extendNone => [.blit r2 r1.x r1.y]
            | .extendRepeat => [.tileBlit r2 r1.x r1.y]
            | _ => []
          (.success,
           [.createSurface img.width img.height,
            .write img.width img.height img.stride,
            .setDrawingFlags .blend,
            .setPorterDuff (_cairo_operator_to_dfb_porter_duff op)] ++
           blitCall ++ [.releaseTemp])

/-! ## Fill dispatcher -/

/-- `cairo_pattern_t`, tagged by `pattern->type`. -/
inductive cairo_pattern_t
  | solid (s : cairo_solid_pattern_t)
  | surface (s : cairo_surface_pattern_t)
  | linear | radial | mesh | rasterSource

/-- The full argument set of a fill call, as passed to
`_cairo_dfb_surface_fill` and forwarded verbatim to the software fallback. -/
structure fill_args_t where
  op : CairoOperator
  pattern : cairo_pattern_t
  path : cairo_path_fixed_t
  fill_rule : Nat
  tolerance : Int
  antialias : Nat
  clip : Option cairo_clip_t

/-- The outcome of a fill: either a status returned to the caller, or
delegation to `_cairo_surface_fallback_fill` with the recorded arguments. -/
inductive fill_result_t
  | status (s : CairoIntStatus)
  | fallback_fill (args : fill_args_t)

/-- `_cairo_dfb_surface_fill` (lines 851-914 of the source).  `clipped` is the
adapter's clip flag; `hwClip` and `hwCreate` are the hardware results for the
`SetClip` and temporary-buffer `CreateSurface` calls.  Returns the outcome,
the new clip flag, and the hardware trace.  Mirrors the source: an
unsupported operator falls back immediately; a non-success from `set_clip` is
returned directly (no fallback); the `LINEAR`/`RADIAL`/`MESH`/`RASTER_SOURCE`
cases only log, leaving the status at the `set_clip` success; a final
`UNSUPPORTED` status triggers the fallback with the original arguments. -/
def _cairo_dfb_surface_fill (clipped : Bool) (args : fill_args_t)
    (hwClip : DFBResult) (hwCreate : DFBResult) :
    fill_result_t × Bool × List DFBEvent :=
  if _cairo_dfb_is_op_supported args.op = false then
    (.fallback_fill args, clipped, [])
  else
    let c := _cairo_dfb_surface_set_clip clipped args.clip hwClip
    if c.1 ≠ .success then
      (.status c.1, c.2.1, c.2.2)
    else
      let r : CairoIntStatus × List DFBEvent :=
        match args.pattern with
        | .solid s => _cairo_dfb_surface_fill_solid args.op s args.path
        | .surface sp => _cairo_dfb_surface_fill_surface args.op sp args.path hwCreate
        | .linear | .radial | .mesh | .rasterSource => (.success, [])
      if r.1 = .unsupported then
        (.fallback_fill args, c.2.1, c.2.2 ++ r.2)
      else
        (.status r.1, c.2.1, c.2.2 ++ r.2)

/-! ## Buffer state machine: map_to_image, flush, finish -/

/-- The CPU-side pixel view built over the memory and pitch the hardware lock
returns (the `pixman_image` installed into `surface->image`). -/
structure pixman_view_t where
  data : Nat
  pitch : Int
deriving DecidableEq, Repr

/-- The mutable mapping state of the adapter: `surface->image.pixman_image`,
`none` while unmapped. -/
structure dfb_surface_state_t where
  pixman_image : Option pixman_view_t
deriving DecidableEq, Repr

/-- The result of `map_to_image`: an error surface, or a view over the
underlying CPU pixels restricted to the requested extents (the restriction by
`_cairo_image_surface_map_to_image` is external code, modelled from the spec:
"Returns a view restricted to the requested region"). -/
inductive map_result_t
  | error (s : CairoIntStatus)
  | view (underlying : pixman_view_t) (extents : cairo_rectangle_int_t)
deriving DecidableEq, Repr

/-- `_cairo_dfb_surface_map_to_image` (lines 190-217 of the source).
`lockResult` is the hardware `Lock` outcome (the returned data pointer and
pitch on success); `createBitsOk` is whether `pixman_image_create_bits`
succeeds.  When a view is already open the function reuses it without
touching the hardware. -/
def _cairo_dfb_surface_map_to_image (s : dfb_surface_state_t)
    (extents : cairo_rectangle_int_t) (lockResult : Option (Nat × Int))
    (createBitsOk : Bool) :
    map_result_t × dfb_surface_state_t × List DFBEvent :=
  match s.pixman_image with
  | none =>
    match lockResult with
    | none => (.error .noMemory, s, [.lock])
    | some (data, pitch) =>
      if createBitsOk then
        let v : pixman_view_t := { data := data, pitch := pitch }
        (.view v extents, { pixman_image := some v }, [.lock])
      else
        (.error .noMemory, s, [.lock, .unlock])
  | some v => (.view v extents, s, [])

/-- `_cairo_dfb_surface_flush` (lines 291-308 of the source).  Non-zero
`flags` (the hint-only flush) returns success immediately; a zero-flag flush
unlocks the hardware surface and drops the CPU view when one is open. -/
def _cairo_dfb_surface_flush (s : dfb_surface_state_t) (flags : Nat) :
    CairoIntStatus × dfb_surface_state_t × List DFBEvent :=
  if flags ≠ 0 then
    (.success, s, [])
  else
    match s.pixman_image with
    | some _ => (.success, { pixman_image := none }, [.unlock])
    | none => (.success, s, [])

/-- `_cairo_dfb_surface_finish` (lines 181-188 of the source): release the
adapter's reference on the hardware surface, then run the generic image-base
finish.  The generic finish (`_cairo_image_surface_finish`, external) frees
the CPU-side pixel view but issues no call on the DirectFB surface — in
particular no `Unlock` — which the resulting state and trace reflect. -/
def _cairo_dfb_surface_finish (s : dfb_surface_state_t) :
    dfb_surface_state_t × List DFBEvent :=
  let _ := s
  ({ pixman_image := none }, [.release])

/-! ## Concrete inputs used by the claims -/

/-- Fully opaque red in 16-bit channels: (1, 0, 0, 1). -/
def opaque_red : cairo_color_t :=
  { red_short := 0xffff, green_short := 0, blue_short := 0, alpha_short := 0xffff }

/-- The fixed-point box with corners (10,10) and (50,40): 24.8 fixed point,
so each coordinate is the integer times 256. -/
def box_10_50 : cairo_box_t :=
  { p1 := { x := 2560, y := 2560 }, p2 := { x := 12800, y := 10240 } }

/-- A path that is exactly the axis-aligned rectangle (10,10)-(50,40). -/
def rect_path_10_50 : cairo_path_fixed_t := .rectangle box_10_50

/-- A concrete pattern matrix (its abstracted float transform is irrelevant to
the claims that use it). -/
def test_matrix : cairo_matrix_t :=
  { transformRect := fun box => _dfb_rect_from_cairo_box box }

/-- A clip whose extents are (0,0)-(100,100) and which is not all-clipped. -/
def test_clip : cairo_clip_t :=
  { extents := { x := 0, y := 0, width := 100, height := 100 }, allClipped := false }

/-! ## Helper lemmas about clip installation -/

/-- When the hardware reports success, `set_clip` returns success and the only
hardware calls it can have made are `SetClip` calls. -/
theorem set_clip_ok (clipped : Bool) (clip : Option cairo_clip_t) :
    (_cairo_dfb_surface_set_clip clipped clip .ok).1 = .success ∧
    ∀ e ∈ (_cairo_dfb_surface_set_clip clipped clip .ok).2.2,
      ∃ r, e = DFBEvent.setClip r := by
  cases clip with
  | none =>
    cases clipped <;> simp [_cairo_dfb_surface_set_clip]
  | some c =>
    cases hc : c.allClipped <;> simp [_cairo_dfb_surface_set_clip, hc]

/-- Whether `set_clip` actually issues a hardware `SetClip` call for the given
clip flag and clip argument (the two branches of the source that call
`SetClip`). -/
def clip_call_made (clipped : Bool) (clip : Option cairo_clip_t) : Bool :=
  match clip with
  | none => clipped
  | some c => !c.allClipped

/-- When a `SetClip` call is made and the hardware reports failure, `set_clip`
returns `CAIRO_INT_STATUS_UNSUPPORTED`. -/
theorem set_clip_failed (clipped : Bool) (clip : Option cairo_clip_t)
    (hcall : clip_call_made clipped clip = true) :
    (_cairo_dfb_surface_set_clip clipped clip .failed).1 = .unsupported := by
  cases clip with
  | none =>
    cases clipped
    · simp [clip_call_made] at hcall
    · simp [_cairo_dfb_surface_set_clip]
  | some c =>
    have hc : c.allClipped = false := by
      simpa [clip_call_made] using hcall
    simp [_cairo_dfb_surface_set_clip, hc]

/-! ## Claim theorems -/

/-- C1: for a fill of a fully opaque solid color with operator `over`, the
blend factor pair actually installed on the hardware surface before the
fill-rectangle call is (ONE, INV_SRC_ALPHA), not the collapsed (ONE, ZERO):
the source computes the opaque collapse only after `SetSrcBlendFunction` /
`SetDstBlendFunction` have run, into locals it never reads.  This theorem
evaluates the embedded code at the failing input and exhibits the installed
pair. -/
theorem C1_opaque_over_installs_uncollapsed_pair :
    CAIRO_COLOR_IS_OPAQUE opaque_red = true ∧
    (_cairo_dfb_surface_fill_solid .over { color := opaque_red } rect_path_10_50).2 =
      [.setDrawingFlags .blend,
       .setSrcBlendFunction .one,
       .setDstBlendFunction .invSrcAlpha,
       .getSize, .setColor 255 0 0 255, .fillRectangle 10 10 40 30] ∧
    DFBEvent.setDstBlendFunction .zero ∉
      (_cairo_dfb_surface_fill_solid .over { color := opaque_red } rect_path_10_50).2 :=
  ⟨by decide, by decide, by decide⟩

/-- A 4x4 ARGB32 source image with stride 16. -/
def small_image : cairo_image_surface_t :=
  { width := 4, height := 4, format := .argb32, stride := 16 }

/-- A surface pattern over `small_image` with extend mode reflect. -/
def reflect_pattern : cairo_surface_pattern_t :=
  { surface := .image small_image, extend := .reflect, matrix := test_matrix }

/-- A surface pattern over `small_image` with extend mode pad. -/
def pad_pattern : cairo_surface_pattern_t :=
  { surface := .image small_image, extend := .pad, matrix := test_matrix }

/-- C3: for a fill with an image pattern whose extend mode is reflect (or
pad), the source does NOT return unsupported and does NOT avoid the upload:
it creates a temporary surface, uploads the source pixels (`Write`), skips
the blit, and returns success.  This theorem evaluates the embedded code at
the failing inputs: the status is success and the trace contains the upload
and no blit of any kind. -/
theorem C3_reflect_uploads_and_returns_success :
    _cairo_dfb_surface_fill_surface .over reflect_pattern rect_path_10_50 .ok =
      (.success,
       [.createSurface 4 4, .write 4 4 16, .setDrawingFlags .blend,
        .setPorterDuff .srcOver, .releaseTemp]) ∧
    _cairo_dfb_surface_fill_surface .over pad_pattern rect_path_10_50 .ok =
      (.success,
       [.createSurface 4 4, .write 4 4 16, .setDrawingFlags .blend,
        .setPorterDuff .srcOver, .releaseTemp]) :=
  ⟨by decide, by decide⟩

/-- C4 counterexample: at a concrete adapter state with an open CPU mapping,
teardown emits exactly the hardware-handle release and no `Unlock` call, so
the mapping is not force-closed (the claim asserts the hardware lock is
released before the handle release). -/
theorem C4_finish_no_unlock_counterexample :
    ({ pixman_image := some { data := 7, pitch := 64 } } :
        dfb_surface_state_t).pixman_image ≠ none ∧
    (_cairo_dfb_surface_finish
        { pixman_image := some { data := 7, pitch := 64 } }).2 = [DFBEvent.release] ∧
    DFBEvent.unlock ∉
      (_cairo_dfb_surface_finish
        { pixman_image := some { data := 7, pitch := 64 } }).2 :=
  ⟨by decide, by decide, by decide⟩

/-- C4 (amended): for every adapter state — mapped or not — teardown releases
the adapter's reference on the hardware surface handle exactly once, but an
open CPU mapping is not force-closed: no hardware unlock is issued at
teardown. -/
theorem C4_finish_releases_once_no_unlock (s : dfb_surface_state_t) :
    (_cairo_dfb_surface_finish s).2.count DFBEvent.release = 1 ∧
    DFBEvent.unlock ∉ (_cairo_dfb_surface_finish s).2 :=
  ⟨rfl, by intro h; simp [_cairo_dfb_surface_finish] at h⟩

/-- The argument set of a solid `over` fill of the rectangle (10,10)-(50,40)
under the clip `test_clip`. -/
def c5_args : fill_args_t :=
  { op := .over, pattern := .solid { color := opaque_red }, path := rect_path_10_50,
    fill_rule := 0, tolerance := 0, antialias := 0, clip := some test_clip }

/-- C5 counterexample: at a concrete fill whose hardware `SetClip` call
fails, the fill returns `CAIRO_INT_STATUS_UNSUPPORTED` — the retry-via-
fallback signal — and not a device error, contrary to the claim. -/
theorem C5_clip_failure_counterexample :
    (_cairo_dfb_surface_fill false c5_args .failed .ok).1 =
      fill_result_t.status .unsupported ∧
    CairoIntStatus.unsupported ≠ CairoIntStatus.deviceError :=
  ⟨rfl, by decide⟩

/-- C5 (amended): for every fill with a supported operator in which a
hardware `SetClip` call is made and reports failure, the fill returns
`CAIRO_INT_STATUS_UNSUPPORTED` directly to its caller (the failure is not
silently swallowed, but it is surfaced as the unsupported signal rather than
as a device error, and the in-module software fallback is not invoked). -/
theorem C5_clip_failure_returns_unsupported (clipped : Bool) (args : fill_args_t)
    (hwCreate : DFBResult)
    (hop : _cairo_dfb_is_op_supported args.op = true)
    (hcall : clip_call_made clipped args.clip = true) :
    (_cairo_dfb_surface_fill clipped args .failed hwCreate).1 =
      fill_result_t.status .unsupported := by
  have hs := set_clip_failed clipped args.clip hcall
  simp [_cairo_dfb_surface_fill, hop, hs]

/-- Witness for C5 (amended) at the concrete input of the counterexample. -/
theorem C5_clip_failure_witness :
    _cairo_dfb_is_op_supported CairoOperator.over = true ∧
    clip_call_made false (some test_clip) = true ∧
    (_cairo_dfb_surface_fill false c5_args .failed .ok).1 =
      fill_result_t.status .unsupported :=
  ⟨by decide, by decide,
   C5_clip_failure_returns_unsupported false c5_args .ok (by decide) (by decide)⟩

/-- The argument set of a solid `source` fill of the rectangle
(10,10)-(50,40) in fully opaque red, with no clip. -/
def source_fill_args : fill_args_t :=
  { op := .source, pattern := .solid { color := opaque_red }, path := rect_path_10_50,
    fill_rule := 0, tolerance := 0, antialias := 0, clip := none }

/-- C6: filling the solid axis-aligned rectangle with fixed-point corners
(10,10)-(50,40), operator `source`, fully opaque red, succeeds and issues
exactly one hardware fill-rectangle call with rect (10,10,40,30) and color
bytes (255,0,0,255), with the drawing flags set to no-effect (and no blend
factors installed); and in general the device rectangle is obtained by
nearest-integer rounding of the fixed-point corners with width and height as
absolute differences, hence always non-negative. -/
theorem C6_rect_fill_roundtrip :
    ((_cairo_dfb_surface_fill false source_fill_args .ok .ok).1 =
        fill_result_t.status .success ∧
     (_cairo_dfb_surface_fill false source_fill_args .ok .ok).2.2 =
       [.setDrawingFlags .nofx, .getSize, .setColor 255 0 0 255,
        .fillRectangle 10 10 40 30] ∧
     (_cairo_dfb_surface_fill false source_fill_args .ok .ok).2.2.count
        (DFBEvent.fillRectangle 10 10 40 30) = 1) ∧
    ∀ box : cairo_box_t,
      _dfb_rect_from_cairo_box box =
        { x := _cairo_fixed_integer_round box.p1.x
          y := _cairo_fixed_integer_round box.p1.y
          w := |_cairo_fixed_integer_round box.p2.x - _cairo_fixed_integer_round box.p1.x|
          h := |_cairo_fixed_integer_round box.p2.y - _cairo_fixed_integer_round box.p1.y| } ∧
      0 ≤ (_dfb_rect_from_cairo_box box).w ∧ 0 ≤ (_dfb_rect_from_cairo_box box).h := by
  refine ⟨⟨rfl, by decide, by decide⟩, ?_⟩
  intro box
  exact ⟨rfl, abs_nonneg _, abs_nonneg _⟩

/-- C7: for every fill with a solid pattern whose path is not structurally an
exact axis-aligned rectangle (and whose hardware clip call, if any, succeeds),
the fill delegates to the external software fallback with the original,
unmodified argument record, and the only hardware calls made are clip
installation — no drawing occurred (all-or-nothing fallback). -/
theorem C7_nonrect_solid_falls_back (clipped : Bool) (args : fill_args_t)
    (hwCreate : DFBResult) (s : cairo_solid_pattern_t)
    (hpat : args.pattern = .solid s)
    (hnonrect : _cairo_path_fixed_is_rectangle args.path = none) :
    (_cairo_dfb_surface_fill clipped args .ok hwCreate).1 =
      fill_result_t.fallback_fill args ∧
    ∀ e ∈ (_cairo_dfb_surface_fill clipped args .ok hwCreate).2.2,
      ∃ r, e = DFBEvent.setClip r := by
  by_cases hop : _cairo_dfb_is_op_supported args.op = false
  · refine ⟨by simp [_cairo_dfb_surface_fill, hop], ?_⟩
    intro e he
    simp [_cairo_dfb_surface_fill, hop] at he
  · obtain ⟨hc1, hc2⟩ := set_clip_ok clipped args.clip
    have hsolid : (_cairo_dfb_surface_fill_solid args.op s args.path) =
        (.unsupported, []) := by
      unfold _cairo_dfb_surface_fill_solid
      rw [hnonrect]
    constructor
    · simp [_cairo_dfb_surface_fill, hop, hc1, hpat, hsolid]
    · intro e he
      simp only [_cairo_dfb_surface_fill, hop, if_false, Bool.false_eq_true] at he
      rw [hpat] at he
      simp only [hsolid, hc1] at he
      simp at he
      exact hc2 e he

/-- A non-rectangular solid fill: the concrete input for the C7 witness. -/
def nonrect_args : fill_args_t :=
  { op := .over, pattern := .solid { color := opaque_red }, path := .nonRectangular,
    fill_rule := 0, tolerance := 0, antialias := 0, clip := none }

/-- Witness for C7 at a concrete non-rectangular solid fill. -/
theorem C7_nonrect_solid_falls_back_witness :
    nonrect_args.pattern = cairo_pattern_t.solid { color := opaque_red } ∧
    _cairo_path_fixed_is_rectangle nonrect_args.path = none ∧
    (_cairo_dfb_surface_fill false nonrect_args .ok .ok).1 =
      fill_result_t.fallback_fill nonrect_args :=
  ⟨rfl, rfl,
   (C7_nonrect_solid_falls_back false nonrect_args .ok { color := opaque_red }
      rfl rfl).1⟩

/-- C8: `map_to_image` is idempotent.  From the unmapped state a failed
hardware lock yields a memory error and leaves the state unmapped; a
successful lock builds the pixel view over the returned memory and pitch and
transitions to mapped; from the mapped state the existing underlying CPU
view is reused for any requested extents with no further hardware lock (no
events at all). -/
theorem C8_map_to_image_idempotent (s : dfb_surface_state_t)
    (ext : cairo_rectangle_int_t) (lockResult : Option (Nat × Int)) :
    (s.pixman_image = none → lockResult = none →
      _cairo_dfb_surface_map_to_image s ext lockResult true =
        (.error .noMemory, s, [.lock])) ∧
    (∀ d p, s.pixman_image = none → lockResult = some (d, p) →
      _cairo_dfb_surface_map_to_image s ext lockResult true =
        (.view { data := d, pitch := p } ext,
         { pixman_image := some { data := d, pitch := p } }, [.lock])) ∧
    (∀ v, s.pixman_image = some v →
      _cairo_dfb_surface_map_to_image s ext lockResult true =
        (.view v ext, s, [])) := by
  refine ⟨?_, ?_, ?_⟩
  · intro h hl
    simp [_cairo_dfb_surface_map_to_image, h, hl]
  · intro d p h hl
    simp [_cairo_dfb_surface_map_to_image, h, hl]
  · intro v h
    simp [_cairo_dfb_surface_map_to_image, h]

/-- Witness for C8: from the unmapped state a successful lock at data
pointer 7 with pitch 64 maps the surface, and a second map re-uses that same
underlying view with no hardware call. -/
theorem C8_map_to_image_idempotent_witness :
    ({ pixman_image := none } : dfb_surface_state_t).pixman_image = none ∧
    _cairo_dfb_surface_map_to_image { pixman_image := none }
        { x := 0, y := 0, width := 8, height := 8 } (some (7, 64)) true =
      (.view { data := 7, pitch := 64 }
        { x := 0, y := 0, width := 8, height := 8 },
       { pixman_image := some { data := 7, pitch := 64 } }, [.lock]) ∧
    _cairo_dfb_surface_map_to_image
        { pixman_image := some { data := 7, pitch := 64 } }
        { x := 0, y := 0, width := 8, height := 8 } none true =
      (.view { data := 7, pitch := 64 }
        { x := 0, y := 0, width := 8, height := 8 },
       { pixman_image := some { data := 7, pitch := 64 } }, []) :=
  ⟨rfl,
   (C8_map_to_image_idempotent { pixman_image := none }
      { x := 0, y := 0, width := 8, height := 8 } (some (7, 64))).2.1 7 64 rfl rfl,
   (C8_map_to_image_idempotent { pixman_image := some { data := 7, pitch := 64 } }
      { x := 0, y := 0, width := 8, height := 8 } none).2.2
      { data := 7, pitch := 64 } rfl⟩

/-- C9: a flush with the hint-only flag (non-zero `flags`) succeeds and is a
complete no-op — it never closes an open mapping; a write-back flush
(`flags = 0`) succeeds, leaves the adapter unmapped, is a no-op when no
mapping is open, and when a mapping is open it releases the hardware lock
(one `Unlock`) and drops the CPU view. -/
theorem C9_flush_writeback_closes_hint_noop (s : dfb_surface_state_t)
    (flags : Nat) :
    (flags ≠ 0 → _cairo_dfb_surface_flush s flags = (.success, s, [])) ∧
    (_cairo_dfb_surface_flush s 0).1 = .success ∧
    (_cairo_dfb_surface_flush s 0).2.1.pixman_image = none ∧
    (s.pixman_image = none → _cairo_dfb_surface_flush s 0 = (.success, s, [])) ∧
    (∀ v, s.pixman_image = some v →
      _cairo_dfb_surface_flush s 0 =
        (.success, { pixman_image := none }, [.unlock])) := by
  refine ⟨?_, ?_, ?_, ?_, ?_⟩
  · intro h
    simp [_cairo_dfb_surface_flush, h]
  · cases h : s.pixman_image <;> simp [_cairo_dfb_surface_flush, h]
  · cases h : s.pixman_image <;> simp [_cairo_dfb_surface_flush, h]
  · intro h
    simp [_cairo_dfb_surface_flush, h]
  · intro v h
    simp [_cairo_dfb_surface_flush, h]

/-- Witness for C9: a hint-only flush of a mapped adapter leaves it mapped;
a write-back flush of the same adapter unlocks and unmaps it. -/
theorem C9_flush_writeback_closes_hint_noop_witness :
    (1 ≠ 0) ∧
    _cairo_dfb_surface_flush { pixman_image := some { data := 7, pitch := 64 } } 1 =
      (.success, { pixman_image := some { data := 7, pitch := 64 } }, []) ∧
    ({ pixman_image := some { data := 7, pitch := 64 } } :
        dfb_surface_state_t).pixman_image = some { data := 7, pitch := 64 } ∧
    _cairo_dfb_surface_flush { pixman_image := some { data := 7, pitch := 64 } } 0 =
      (.success, { pixman_image := none }, [.unlock]) :=
  ⟨one_ne_zero,
   (C9_flush_writeback_closes_hint_noop
      { pixman_image := some { data := 7, pitch := 64 } } 1).1 one_ne_zero,
   rfl,
   (C9_flush_writeback_closes_hint_noop
      { pixman_image := some { data := 7, pitch := 64 } } 0).2.2.2.2
      { data := 7, pitch := 64 } rfl⟩

/-- C10: for every fill with a supported operator, an axis-aligned
rectangular path, and a surface pattern whose source is itself a DirectFB
surface (with the hardware clip call, if any, succeeding), the fill reports
success — not unsupported, so the software fallback is never invoked — while
performing no upload, no blit, and no drawing call at all: every hardware
call in the trace is a clip installation. -/
theorem C10_dfb_source_silent_success (clipped : Bool) (args : fill_args_t)
    (hwCreate : DFBResult) (ext : cairo_extend_t) (mat : cairo_matrix_t)
    (box : cairo_box_t)
    (hop : _cairo_dfb_is_op_supported args.op = true)
    (hpat : args.pattern = .surface
      { surface := .directfb, extend := ext, matrix := mat })
    (hrect : _cairo_path_fixed_is_rectangle args.path = some box) :
    (_cairo_dfb_surface_fill clipped args .ok hwCreate).1 =
      fill_result_t.status .success ∧
    ∀ e ∈ (_cairo_dfb_surface_fill clipped args .ok hwCreate).2.2,
      ∃ r, e = DFBEvent.setClip r := by
  obtain ⟨hc1, hc2⟩ := set_clip_ok clipped args.clip
  have hsurf : _cairo_dfb_surface_fill_surface args.op
      { surface := .directfb, extend := ext, matrix := mat } args.path hwCreate =
      (.success, []) := by
    unfold _cairo_dfb_surface_fill_surface
    rw [hrect]
  constructor
  · simp [_cairo_dfb_surface_fill, hop, hc1, hpat, hsurf]
  · intro e he
    simp only [_cairo_dfb_surface_fill, hop, if_false, Bool.false_eq_true] at he
    rw [hpat] at he
    simp only [hsurf, hc1] at he
    simp at he
    exact hc2 e he

/-- A fill whose source is another DirectFB surface: the concrete input for
the C10 witness. -/
def dfb_source_args : fill_args_t :=
  { op := .over,
    pattern := .surface
      { surface := .directfb, extend := .extendNone, matrix := test_matrix },
    path := rect_path_10_50,
    fill_rule := 0, tolerance := 0, antialias := 0, clip := none }

/-- Witness for C10 at a concrete DirectFB-sourced fill. -/
theorem C10_dfb_source_silent_success_witness :
    _cairo_dfb_is_op_supported dfb_source_args.op = true ∧
    _cairo_path_fixed_is_rectangle dfb_source_args.path = some box_10_50 ∧
    (_cairo_dfb_surface_fill false dfb_source_args .ok .ok).1 =
      fill_result_t.status .success :=
  ⟨by decide, rfl,
   (C10_dfb_source_silent_success false dfb_source_args .ok .extendNone
      test_matrix box_10_50 (by decide) rfl rfl).1⟩

end CairoDFB
